import Mathlib

/-!
Shallow embedding of the `scraper-fts` ETL pipeline (src/main.py) and proofs
about its cell-cleaning, header-mapping, batching, orchestration and
configuration logic.

Modelling conventions:
* A spreadsheet cell value (what `openpyxl` hands back in `cell.value`) is the
  sum type `CellValue`: the Python `None`, a string, an `int`, a `float`
  (modelled as a rational, which is exact on the finite decimal literals the
  pipeline ever produces), a `bool`, or a naive `datetime`.
* Python truthiness and `==` on these values are modelled explicitly.
* Python `float(s)` is modelled by `parseFloat`, a parser for optionally
  signed finite decimal literals with optional exponent and surrounding
  whitespace (the special forms `inf`, `nan` and underscore separators are
  outside the fragment the pipeline exercises).
* `str.replace(",", "")` is modelled by `stripCommas` (removing every comma).
* Database, HTTP and environment effects are modelled by explicit parameters
  (an abstract loader state, a fetch oracle `Nat → HttpResult`, an environment
  `String → Option String`).
-/

/-- A spreadsheet cell value as produced by openpyxl.  `bool` is kept separate
from `int` even though Python bool is an int subclass; the instance checks
below account for the subclassing. -/
inductive CellValue where
  | none
  | str (s : String)
  | int (n : Int)
  | float (q : Rat)
  | bool (b : Bool)
  | datetime (year month day hour minute second : Nat)
deriving DecidableEq, Repr

/-- Python truthiness of a cell value: None, "", 0, 0.0 and False are falsy;
a datetime is always truthy. -/
def truthy : CellValue → Bool
  | CellValue.none => false
  | CellValue.str s => s ≠ ""
  | CellValue.int n => n ≠ 0
  | CellValue.float q => q ≠ 0
  | CellValue.bool b => b
  | CellValue.datetime _ _ _ _ _ _ => true

/-- Two-digit zero padding, as strftime %m and %d produce. -/
def pad2 (n : Nat) : String :=
  if n < 10 then "0" ++ toString n else toString n

/-- The result of `value.strftime("%Y-%m-%d")` on a datetime with the given
calendar fields.  (%Y prints the year without extra padding for the
four-digit years this dataset contains.) -/
def formatYMD (y mo d : Nat) : String :=
  toString y ++ "-" ++ pad2 mo ++ "-" ++ pad2 d

/-- Value of a list of decimal digit characters. -/
def digitsVal (ds : List Char) : Nat :=
  ds.foldl (fun a c => a * 10 + (c.toNat - 48)) 0

/-- Split a character list into its leading run of decimal digits and the
rest. -/
def spanDigits : List Char → List Char × List Char
  | [] => ([], [])
  | c :: cs =>
    if c.isDigit then
      let p := spanDigits cs
      (c :: p.1, p.2)
    else ([], c :: cs)

/-- Consume an optional sign; the boolean is true for a leading minus. -/
def parseSign : List Char → Bool × List Char
  | '+' :: cs => (false, cs)
  | '-' :: cs => (true, cs)
  | cs => (false, cs)

/-- Parse the mantissa of a decimal literal: digits, optionally with a decimal
point (at least one digit overall, on either side).  Returns the digit string
read as a natural number together with the number of fractional digits. -/
def parseMantissa (cs : List Char) : Option ((Nat × Nat) × List Char) :=
  let ip := spanDigits cs
  match ip.2 with
  | '.' :: r2 =>
    let fp := spanDigits r2
    if ip.1.isEmpty && fp.1.isEmpty then Option.none
    else some ((digitsVal (ip.1 ++ fp.1), fp.1.length), fp.2)
  | _ => if ip.1.isEmpty then Option.none else some ((digitsVal ip.1, 0), ip.2)

/-- Parse an optional exponent part `e|E [sign] digits`; returns
(negated, magnitude, rest).  Absence of an `e` is a zero exponent. -/
def parseExpPart : List Char → Option (Bool × Nat × List Char)
  | [] => some (false, 0, [])
  | c :: r1 =>
    if c = 'e' ∨ c = 'E' then
      let sg := parseSign r1
      let ds := spanDigits sg.2
      if ds.1.isEmpty then Option.none else some (sg.1, digitsVal ds.1, ds.2)
    else some (false, 0, c :: r1)

/-- Strip leading and trailing whitespace characters. -/
def trimWs (cs : List Char) : List Char :=
  ((cs.dropWhile Char.isWhitespace).reverse.dropWhile Char.isWhitespace).reverse

/-- Model of Python `float(s)` on finite decimal literals: optional
whitespace, optional sign, decimal mantissa, optional exponent; anything
else fails (`ValueError` in Python, `Option.none` here). -/
def parseFloat (s : String) : Option Rat :=
  let cs := trimWs s.data
  let sg := parseSign cs
  match parseMantissa sg.2 with
  | Option.none => Option.none
  | some m =>
    match parseExpPart m.2 with
    | Option.none => Option.none
    | some e =>
      if e.2.2.isEmpty then
        let eplus : Nat := if e.1 then 0 else e.2.1
        let eminus : Nat := if e.1 then e.2.1 else 0
        let mag : Nat := m.1.1 * 10 ^ eplus
        let num : Int := if sg.1 then -(mag : Int) else (mag : Int)
        some (mkRat num (10 ^ (m.1.2 + eminus)))
      else Option.none

/-- Model of `value.replace(",", "")`: every comma is removed. -/
def stripCommas (s : String) : String :=
  String.mk (s.data.filter (fun c => c ≠ ','))

/-- Embedding of `clean_value(value, column_type)` from src/main.py.
Notes kept from the source control flow:
* the leading `value is None or value == ""` guard matches exactly Python
  `None` and the empty string (no other value compares equal to `""`);
* in the boolean branch Python `==` against `"Yes"`/`"No"` succeeds only for
  those exact strings, so native booleans fall to the final `return None`;
* the date branch has no `else`: a truthy non-datetime value other than `"-"`
  falls through, and since the following `numeric` test is false for a
  `"date"` column the function returns the value unchanged;
* in the numeric branch `isinstance(value, (int, float))` is also true for
  Python booleans (bool subclasses int), so they pass through; the string
  case strips commas and parses a float, returning None on parse failure;
  any other value hits the branch-final `return None`. -/
def clean_value (value : CellValue) (column_type : Option String) : CellValue :=
  if value = CellValue.none ∨ value = CellValue.str "" then CellValue.none
  else if column_type = some "boolean" then
    (if value = CellValue.str "Yes" then CellValue.bool true
     else if value = CellValue.str "No" then CellValue.bool false
     else CellValue.none)
  else if column_type = some "date" then
    (match value with
     | CellValue.datetime y mo d _ _ _ => CellValue.str (formatYMD y mo d)
     | _ =>
       if value = CellValue.str "-" ∨ truthy value = false then CellValue.none
       else value)
  else if column_type = some "numeric" then
    (match value with
     | CellValue.int n => CellValue.int n
     | CellValue.float q => CellValue.float q
     | CellValue.bool b => CellValue.bool b
     | CellValue.str s =>
       (match parseFloat (stripCommas s) with
        | some q => CellValue.float q
        | Option.none => CellValue.none)
     | _ => CellValue.none)
  else value

/-- Embedding of `get_column_mapping()`: Excel header → database column, in
source order. -/
def get_column_mapping : List (String × String) :=
  [("Year", "year"),
   ("Budget", "budget"),
   ("Reference of the Legal Commitment (LC)", "reference_legal_commitment"),
   ("Reference (Budget)", "reference_budget"),
   ("Name of beneficiary", "beneficiary_name"),
   ("VAT number of beneficiary", "beneficiary_vat"),
   ("Not-for-profit organisation (NFPO)", "not_for_profit"),
   ("Non-governmental organisation (NGO)", "non_governmental"),
   ("Coordinator", "coordinator"),
   ("Address", "address"),
   ("City", "city"),
   ("Postal code", "postal_code"),
   ("Beneficiary country", "beneficiary_country"),
   ("NUTS2", "nuts2"),
   ("Geographical Zone", "geographical_zone"),
   ("Action location", "action_location"),
   ("Beneficiary\x27s contracted amount (EUR)", "beneficiary_contracted_amount"),
   ("Beneficiary\x27s estimated contracted amount (EUR)", "beneficiary_estimated_contracted_amount"),
   ("Beneficiary\x27s estimated consumed amount (EUR)", "beneficiary_estimated_consumed_amount"),
   ("Commitment contracted amount (EUR) (A)", "commitment_contracted_amount"),
   ("Additional/Reduced amount (EUR) (B)", "additional_reduced_amount"),
   ("Commitment  total amount (EUR) (A+B)", "commitment_total_amount"),
   ("Commitment consumed amount (EUR)", "commitment_consumed_amount"),
   ("Source of (estimated) detailed amount", "source_estimated_detailed_amount"),
   ("Expense type", "expense_type"),
   ("Subject of grant or contract", "subject_grant_contract"),
   ("Responsible department", "responsible_department"),
   ("Budget line number", "budget_line_number"),
   ("Budget line name", "budget_line_name"),
   ("Programme name", "programme_name"),
   ("Funding type", "funding_type"),
   ("Beneficiary Group Code", "beneficiary_group_code"),
   ("Beneficiary type", "beneficiary_type"),
   ("Project start date", "project_start_date"),
   ("Project end date", "project_end_date"),
   ("Type of contract*", "type_of_contract"),
   ("Management type", "management_type"),
   ("Benefiting country", "benefiting_country")]

/-- Embedding of `get_column_types()`: Excel header → cleaning type. -/
def get_column_types : List (String × String) :=
  [("Not-for-profit organisation (NFPO)", "boolean"),
   ("Non-governmental organisation (NGO)", "boolean"),
   ("Coordinator", "boolean"),
   ("Project start date", "date"),
   ("Project end date", "date"),
   ("Beneficiary\x27s contracted amount (EUR)", "numeric"),
   ("Beneficiary\x27s estimated contracted amount (EUR)", "numeric"),
   ("Beneficiary\x27s estimated consumed amount (EUR)", "numeric"),
   ("Commitment contracted amount (EUR) (A)", "numeric"),
   ("Additional/Reduced amount (EUR) (B)", "numeric"),
   ("Commitment  total amount (EUR) (A+B)", "numeric"),
   ("Commitment consumed amount (EUR)", "numeric")]

/-- Python `table[header] if header in table` on a header cell: only string
headers can hit the string-keyed dict. -/
def headerLookup (table : List (String × String)) : CellValue → Option String
  | CellValue.str s => (table.find? (fun p => p.1 = s)).map Prod.snd
  | _ => Option.none

/-- C1: for a boolean-typed cell, clean_value maps the exact string "Yes" to
true, the exact string "No" to false, and every other value (including the
empty string, None, lowercase variants and native booleans) to None. -/
theorem clean_value_boolean_spec (v : CellValue) :
    clean_value v (some "boolean") =
      (if v = CellValue.str "Yes" then CellValue.bool true
       else if v = CellValue.str "No" then CellValue.bool false
       else CellValue.none) := by
  cases v with
  | str s =>
    by_cases h : s = ""
    · subst h; decide
    · simp [clean_value, h]
  | _ => simp [clean_value]

/-- C2: for a numeric-typed cell, clean_value passes native int and float
values through unchanged, strips commas from strings and parses them as a
float with unparsable strings mapped to None; in particular "1,234.50"
yields 1234.50, "abc" yields None, and a native 42 yields 42. -/
theorem clean_value_numeric_spec :
    (∀ n : Int, clean_value (CellValue.int n) (some "numeric") = CellValue.int n) ∧
    (∀ q : Rat, clean_value (CellValue.float q) (some "numeric") = CellValue.float q) ∧
    (∀ s : String,
        clean_value (CellValue.str s) (some "numeric") =
          (match parseFloat (stripCommas s) with
           | some q => CellValue.float q
           | Option.none => CellValue.none)) ∧
    clean_value (CellValue.str "1,234.50") (some "numeric") = CellValue.float (mkRat 2469 2) ∧
    clean_value (CellValue.str "abc") (some "numeric") = CellValue.none ∧
    clean_value (CellValue.int 42) (some "numeric") = CellValue.int 42 := by
  refine ⟨fun n => by simp [clean_value], fun q => by simp [clean_value], fun s => ?_,
    by decide, by decide, by decide⟩
  by_cases h : s = ""
  · subst h; decide
  · simp [clean_value, h]

/-- C3: for a date-typed cell, clean_value formats a native datetime to the
calendar string produced by strftime as year-month-day (2023-05-01 becomes
"2023-05-01"), and maps the literal "-" as well as every falsy value to
None; the embedding is a total function, mirroring that no input raises. -/
theorem clean_value_date_spec :
    (∀ y mo d h mi s : Nat,
        clean_value (CellValue.datetime y mo d h mi s) (some "date") =
          CellValue.str (formatYMD y mo d)) ∧
    clean_value (CellValue.datetime 2023 5 1 0 0 0) (some "date") = CellValue.str "2023-05-01" ∧
    clean_value (CellValue.str "-") (some "date") = CellValue.none ∧
    (∀ v : CellValue, truthy v = false → clean_value v (some "date") = CellValue.none) := by
  refine ⟨fun y mo d h mi s => by simp [clean_value], by decide, by decide, fun v hv => ?_⟩
  cases v with
  | none => decide
  | str s => simp [truthy] at hv; subst hv; decide
  | int n => simp [truthy] at hv; subst hv; decide
  | float q => simp [truthy] at hv; subst hv; simp [clean_value, truthy]
  | bool b => simp [truthy] at hv; subst hv; decide
  | datetime y mo d h mi s => simp [truthy] at hv

/-- C3 witness: the falsy-value clause instantiated at the native integer 0,
together with the concrete datetime example. -/
theorem clean_value_date_spec_witness :
    clean_value (CellValue.int 0) (some "date") = CellValue.none ∧
    clean_value (CellValue.datetime 2023 5 1 0 0 0) (some "date") = CellValue.str "2023-05-01" :=
  ⟨clean_value_date_spec.2.2.2 (CellValue.int 0) (by decide), clean_value_date_spec.2.1⟩

/-- C10: for a date-typed cell holding a non-empty string other than "-",
clean_value returns the string unchanged: the dateless branch falls through
to the final passthrough, so no parsing happens and the result is neither
None nor an error. -/
theorem clean_value_date_passthrough (s : String) (h1 : s ≠ "") (h2 : s ≠ "-") :
    clean_value (CellValue.str s) (some "date") = CellValue.str s := by
  simp [clean_value, truthy, h1, h2]

/-- C10 witness: a date-typed cell holding the string "2023-05-01" passes
through unchanged. -/
theorem clean_value_date_passthrough_witness :
    clean_value (CellValue.str "2023-05-01") (some "date") = CellValue.str "2023-05-01" :=
  clean_value_date_passthrough "2023-05-01" (by decide) (by decide)

/-- An Excel worksheet as seen by `process_excel_data`: the first row of
headers and the data rows below it.  A cell read past the end of a row is
None (openpyxl pads a read-only sheet with empty cells). -/
structure Worksheet where
  headers : List CellValue
  dataRows : List (List CellValue)
deriving DecidableEq, Repr

universe u

variable {α : Type u}

/-- Embedding of the `for idx, header in enumerate(headers)` loop that fills
`excel_to_db_columns`: the (index, database column) pairs of the mapped
headers, in header order, indices counted from `i`. -/
def mappedColumnsFrom (table : List (String × String)) : Nat → List CellValue → List (Nat × String)
  | _, [] => []
  | i, h :: hs =>
    match headerLookup table h with
    | some db => (i, db) :: mappedColumnsFrom table (i + 1) hs
    | Option.none => mappedColumnsFrom table (i + 1) hs

/-- The `excel_to_db_columns` dict of the source, as an index-keyed
association list in insertion order. -/
def excel_to_db_columns (headers : List CellValue) : List (Nat × String) :=
  mappedColumnsFrom get_column_mapping 0 headers

/-- The `db_columns` list of the source: destination columns of the mapped
headers in original header order. -/
def db_columns (headers : List CellValue) : List String :=
  (excel_to_db_columns headers).map Prod.snd

/-- The `excel_column_types.get(idx)` lookup: the cleaning type attached to
the header at a column index, if any. -/
def colTypeAt (headers : List CellValue) (idx : Nat) : Option String :=
  match headers[idx]? with
  | some h => headerLookup get_column_types h
  | Option.none => Option.none

/-- Embedding of the per-row loop body: one cleaned output row, one value per
mapped column, in mapped-column order. -/
def cleanRow (headers : List CellValue) (row : List CellValue) : List CellValue :=
  (excel_to_db_columns headers).map
    (fun p => clean_value (row.getD p.1 CellValue.none) (colTypeAt headers p.1))

/-- The `batch_size = 5000` constant of the source. -/
def batch_size : Nat := 5000

/-- One iteration of the row loop, restricted to its batching effect: append
the row to the pending batch; once the pending batch reaches the batch size,
emit it and start a fresh one.  The state is (emitted batches, pending). -/
def batchStep (n : Nat) (acc : List (List α) × List α) (x : α) : List (List α) × List α :=
  let rows := acc.2 ++ [x]
  if n ≤ rows.length then (acc.1 ++ [rows], []) else (acc.1, rows)

/-- All batches the row loop yields: the full ones emitted on the way plus
the final partial batch if it is nonempty (`if rows: yield db_columns, rows`). -/
def batches (n : Nat) (l : List α) : List (List α) :=
  if (l.foldl (batchStep n) ([], [])).2.isEmpty then (l.foldl (batchStep n) ([], [])).1
  else (l.foldl (batchStep n) ([], [])).1 ++ [(l.foldl (batchStep n) ([], [])).2]

/-- Embedding of `process_excel_data(file_path, year)`: the sequence of
yielded (db_columns, rows) pairs.  The column list is computed once from the
header row; every yield reuses it. -/
def process_excel_data (ws : Worksheet) : List (List String × List (List CellValue)) :=
  let cols := db_columns ws.headers
  (batches batch_size (ws.dataRows.map (fun row => cleanRow ws.headers row))).map
    (fun b => (cols, b))

/-- Invariant of the batching fold: full batches stay full, the pending batch
stays below the batch size, and emitted-plus-pending is exactly the input
consumed so far, in order. -/
theorem batchStep_foldl_inv (n : Nat) (hn : 0 < n) :
    ∀ (l : List α) (acc : List (List α) × List α),
      (∀ b ∈ acc.1, b.length = n) → acc.2.length < n →
      (∀ b ∈ (l.foldl (batchStep n) acc).1, b.length = n) ∧
      (l.foldl (batchStep n) acc).2.length < n ∧
      (l.foldl (batchStep n) acc).1.flatten ++ (l.foldl (batchStep n) acc).2 =
        acc.1.flatten ++ acc.2 ++ l := by
  intro l
  induction l with
  | nil => intro acc h1 h2; simpa using ⟨h1, h2⟩
  | cons x t ih =>
    intro acc h1 h2
    rw [List.foldl_cons]
    by_cases hfull : n ≤ acc.2.length + 1
    · have hstep : batchStep n acc x = (acc.1 ++ [acc.2 ++ [x]], []) := by
        simp [batchStep, hfull]
      have hlen : (acc.2 ++ [x]).length = n := by
        simp only [List.length_append, List.length_cons, List.length_nil]
        omega
      have ha : ∀ b ∈ acc.1 ++ [acc.2 ++ [x]], b.length = n := by
        intro b hb
        rcases List.mem_append.mp hb with hb | hb
        · exact h1 b hb
        · rw [List.mem_singleton.mp hb]; exact hlen
      rw [hstep]
      obtain ⟨g1, g2, g3⟩ := ih (acc.1 ++ [acc.2 ++ [x]], []) ha (by simpa using hn)
      refine ⟨g1, g2, ?_⟩
      rw [g3]
      simp
    · have hstep : batchStep n acc x = (acc.1, acc.2 ++ [x]) := by
        simp [batchStep, hfull]
      have h2' : (acc.1, acc.2 ++ [x]).2.length < n := by
        simp only [List.length_append, List.length_cons, List.length_nil]
        omega
      rw [hstep]
      obtain ⟨g1, g2, g3⟩ := ih (acc.1, acc.2 ++ [x]) h1 h2'
      refine ⟨g1, g2, ?_⟩
      rw [g3]
      simp

/-- Concatenating the batches gives back the input list, in order. -/
theorem batches_flatten (n : Nat) (hn : 0 < n) (l : List α) :
    (batches n l).flatten = l := by
  obtain ⟨g1, g2, g3⟩ :=
    batchStep_foldl_inv n hn l ([], []) (by simp) (by simpa using hn)
  unfold batches
  by_cases h : (l.foldl (batchStep n) ([], [])).2.isEmpty
  · rw [if_pos h]
    rw [List.isEmpty_iff.mp h] at g3
    simpa using g3
  · rw [if_neg h]
    simpa using g3

/-- Every batch except possibly the last is exactly full; every batch is
nonempty and at most full. -/
theorem batches_sizes (n : Nat) (hn : 0 < n) (l : List α) :
    (∀ b ∈ (batches n l).dropLast, b.length = n) ∧
    (∀ b ∈ batches n l, 0 < b.length ∧ b.length ≤ n) := by
  obtain ⟨g1, g2, _⟩ :=
    batchStep_foldl_inv n hn l ([], []) (by simp) (by simpa using hn)
  unfold batches
  by_cases h : (l.foldl (batchStep n) ([], [])).2.isEmpty
  · rw [if_pos h]
    refine ⟨fun b hb => g1 b ((List.dropLast_sublist _).subset hb), fun b hb => ?_⟩
    have := g1 b hb
    omega
  · rw [if_neg h]
    have hne : (l.foldl (batchStep n) ([], [])).2 ≠ [] := by
      simpa [List.isEmpty_iff] using h
    constructor
    · intro b hb
      rw [List.dropLast_concat] at hb
      exact g1 b hb
    · intro b hb
      rcases List.mem_append.mp hb with hb | hb
      · have := g1 b hb; omega
      · rw [List.mem_singleton.mp hb]
        have hpos : 0 < (l.foldl (batchStep n) ([], [])).2.length :=
          List.length_pos.mpr hne
        omega

/-- Projecting the yielded pairs to their row batches recovers the plain
batch list. -/
theorem process_map_snd (ws : Worksheet) :
    (process_excel_data ws).map Prod.snd
      = batches batch_size (ws.dataRows.map (fun row => cleanRow ws.headers row)) := by
  simp [process_excel_data]

/-- Projecting the yielded pairs to their row counts gives the batch size
profile. -/
theorem process_map_sizes (ws : Worksheet) :
    (process_excel_data ws).map (fun p => p.2.length)
      = (batches batch_size (ws.dataRows.map (fun row => cleanRow ws.headers row))).map
          List.length := by
  simp [process_excel_data]

/-- C4: the Row Normalizer groups the cleaned rows into batches of exactly
batch_size rows, except a possibly smaller (nonempty) final batch, and
concatenating the yielded batches gives the cleaned rows in original file
row order. -/
theorem process_excel_data_batching (ws : Worksheet) :
    ((process_excel_data ws).map Prod.snd).flatten = ws.dataRows.map (cleanRow ws.headers) ∧
    (∀ b ∈ ((process_excel_data ws).map Prod.snd).dropLast, b.length = batch_size) ∧
    (∀ b ∈ (process_excel_data ws).map Prod.snd, 0 < b.length ∧ b.length ≤ batch_size) := by
  rw [process_map_snd]
  exact ⟨batches_flatten _ (by decide) _, (batches_sizes _ (by decide) _).1,
    (batches_sizes _ (by decide) _).2⟩

/-- The multiset-free size profile of the batch list: some number k of full
batches followed by a remainder batch of size r when r is nonzero, where
n * k + r is the input length and r < n. -/
theorem batches_length_count (n : Nat) (hn : 0 < n) (l : List α) :
    ∃ k r, (batches n l).map List.length
        = (if r = 0 then List.replicate k n else List.replicate k n ++ [r]) ∧
      n * k + r = l.length ∧ r < n := by
  obtain ⟨g1, g2, g3⟩ :=
    batchStep_foldl_inv n hn l ([], []) (by simp) (by simpa using hn)
  refine ⟨(l.foldl (batchStep n) ([], [])).1.length,
    (l.foldl (batchStep n) ([], [])).2.length, ?_, ?_, g2⟩
  · have hrep : (l.foldl (batchStep n) ([], [])).1.map List.length
        = List.replicate ((l.foldl (batchStep n) ([], [])).1.map List.length).length n := by
      refine List.eq_replicate_of_mem ?_
      intro b hb
      obtain ⟨c, hc, rfl⟩ := List.mem_map.mp hb
      exact g1 c hc
    unfold batches
    by_cases h : (l.foldl (batchStep n) ([], [])).2.isEmpty
    · have hr : (l.foldl (batchStep n) ([], [])).2.length = 0 := by
        rw [List.isEmpty_iff.mp h]; rfl
      rw [if_pos h, hr, if_pos rfl, hrep, List.length_map]
    · have hr : (l.foldl (batchStep n) ([], [])).2.length ≠ 0 := by
        have := List.length_pos.mpr (by simpa [List.isEmpty_iff] using h)
        omega
      rw [if_neg h, if_neg hr, List.map_append, hrep, List.length_map]
      rfl
  · have hlen := congrArg List.length g3
    simp only [List.length_append, List.length_flatten, List.flatten_nil,
      List.length_nil, Nat.zero_add] at hlen
    have hrep : (l.foldl (batchStep n) ([], [])).1.map List.length
        = List.replicate ((l.foldl (batchStep n) ([], [])).1.map List.length).length n := by
      refine List.eq_replicate_of_mem ?_
      intro b hb
      obtain ⟨c, hc, rfl⟩ := List.mem_map.mp hb
      exact g1 c hc
    rw [hrep, List.sum_replicate, List.length_map, smul_eq_mul] at hlen
    rw [Nat.mul_comm]
    omega

/-- A worksheet with one mapped header column and 12,345 data rows, used to
check the batching arithmetic on the size quoted by the specification. -/
def sheet12345 : Worksheet :=
  ⟨[CellValue.str "Year"], List.replicate 12345 [CellValue.int 2020]⟩

/-- On 12,345 data rows the yielded batch sizes are 5000, 5000, 2345. -/
theorem sheet12345_sizes :
    (process_excel_data sheet12345).map (fun p => p.2.length) = [5000, 5000, 2345] := by
  rw [process_map_sizes]
  obtain ⟨k, r, h1, h2, h3⟩ := batches_length_count batch_size (by decide)
    (sheet12345.dataRows.map (fun row => cleanRow sheet12345.headers row))
  have hlen : (sheet12345.dataRows.map (fun row => cleanRow sheet12345.headers row)).length
      = 12345 := by
    rw [List.length_map]
    show (List.replicate 12345 [CellValue.int 2020]).length = 12345
    rw [List.length_replicate]
  rw [hlen] at h2
  have hbs : batch_size = 5000 := rfl
  rw [hbs] at h2 h3
  have hk : k = 2 := by omega
  have hr : r = 2345 := by omega
  subst hk; subst hr
  rw [h1, if_neg (by decide : ¬ (2345 = 0))]
  rfl

/-- C5 counterexample: over 12,345 input data rows at batch size 5000, the
batch size profile is not 5000, 5000, 3345 (those sizes sum to 13,345). -/
theorem process_excel_data_12345_not_3345 :
    ¬ (process_excel_data sheet12345).map (fun p => p.2.length) = [5000, 5000, 3345] := by
  rw [sheet12345_sizes]
  decide

/-- C5 amended: over 12,345 input data rows at batch size 5000, exactly
three batches are produced, of sizes 5000, 5000 and 2345, whose
concatenation is the cleaned rows in original row order. -/
theorem process_excel_data_12345_batches :
    (process_excel_data sheet12345).map (fun p => p.2.length) = [5000, 5000, 2345] ∧
    ((process_excel_data sheet12345).map Prod.snd).flatten
      = sheet12345.dataRows.map (cleanRow sheet12345.headers) := by
  refine ⟨sheet12345_sizes, ?_⟩
  rw [process_map_snd]
  exact batches_flatten _ (by decide) _

/-- The destination columns are the images of the mapped headers, kept in
header order. -/
theorem mappedColumnsFrom_map_snd (table : List (String × String)) :
    ∀ (i : Nat) (hs : List CellValue),
      (mappedColumnsFrom table i hs).map Prod.snd = hs.filterMap (headerLookup table) := by
  intro i hs
  induction hs generalizing i with
  | nil => rfl
  | cons h t ih =>
    cases hl : headerLookup table h with
    | none => simp [mappedColumnsFrom, hl, ih]
    | some db => simp [mappedColumnsFrom, hl, ih]

/-- Mapped column indices stay below the header count. -/
theorem mappedColumnsFrom_idx_lt (table : List (String × String)) :
    ∀ (i : Nat) (hs : List CellValue) (p : Nat × String),
      p ∈ mappedColumnsFrom table i hs → p.1 < i + hs.length := by
  intro i hs
  induction hs generalizing i with
  | nil => intro p hp; simp [mappedColumnsFrom] at hp
  | cons h t ih =>
    intro p hp
    cases hl : headerLookup table h with
    | none =>
      rw [mappedColumnsFrom, hl] at hp
      have := ih (i + 1) p hp
      simp only [List.length_cons]
      omega
    | some db =>
      rw [mappedColumnsFrom, hl] at hp
      rcases List.mem_cons.mp hp with rfl | hp
      · simp only [List.length_cons]
        omega
      · have := ih (i + 1) p hp
        simp only [List.length_cons]
        omega

/-- Appending an unmapped header leaves the mapped column list unchanged. -/
theorem mappedColumnsFrom_append_unmapped (table : List (String × String)) (h : CellValue)
    (hh : headerLookup table h = Option.none) :
    ∀ (i : Nat) (hs : List CellValue),
      mappedColumnsFrom table i (hs ++ [h]) = mappedColumnsFrom table i hs := by
  intro i hs
  induction hs generalizing i with
  | nil => simp [mappedColumnsFrom, hh]
  | cons c t ih =>
    cases hl : headerLookup table c with
    | none => simp [mappedColumnsFrom, hl, ih]
    | some db => simp [mappedColumnsFrom, hl, ih]

/-- A column type looked up below the original header count is unaffected by
an appended header. -/
theorem colTypeAt_append_of_lt (hs : List CellValue) (h : CellValue) (idx : Nat)
    (hidx : idx < hs.length) : colTypeAt (hs ++ [h]) idx = colTypeAt hs idx := by
  unfold colTypeAt
  rw [List.getElem?_append_left hidx]

/-- Appending an unmapped header to the header row changes no cleaned row. -/
theorem cleanRow_append_unmapped (hs : List CellValue) (h : CellValue)
    (hh : headerLookup get_column_mapping h = Option.none) (row : List CellValue) :
    cleanRow (hs ++ [h]) row = cleanRow hs row := by
  unfold cleanRow excel_to_db_columns
  rw [mappedColumnsFrom_append_unmapped _ _ hh]
  refine List.map_congr_left ?_
  intro p hp
  have hlt : p.1 < hs.length := by
    have := mappedColumnsFrom_idx_lt get_column_mapping 0 hs p hp
    omega
  rw [colTypeAt_append_of_lt hs h p.1 hlt]

/-- C6: the destination column list is fixed from the header row alone as the
ColumnMapping images of the mapped headers in header order; every yielded
batch carries that same list; every output row has exactly one cell per
destination column; and a header absent from ColumnMapping contributes no
column and no cell, leaving the whole output unchanged. -/
theorem process_excel_data_columns :
    (∀ hs : List CellValue,
        db_columns hs = hs.filterMap (headerLookup get_column_mapping)) ∧
    (∀ (ws : Worksheet), ∀ p ∈ process_excel_data ws,
        p.1 = db_columns ws.headers ∧
        ∀ r ∈ p.2, r.length = (db_columns ws.headers).length) ∧
    (∀ (hs : List CellValue) (rows : List (List CellValue)) (h : CellValue),
        headerLookup get_column_mapping h = Option.none →
        process_excel_data ⟨hs ++ [h], rows⟩ = process_excel_data ⟨hs, rows⟩) := by
  refine ⟨fun hs => mappedColumnsFrom_map_snd get_column_mapping 0 hs, ?_, ?_⟩
  · intro ws p hp
    simp only [process_excel_data] at hp
    obtain ⟨b, hb, rfl⟩ := List.mem_map.mp hp
    refine ⟨rfl, ?_⟩
    intro r hr
    have hrmem : r ∈ (batches batch_size
        (ws.dataRows.map (fun row => cleanRow ws.headers row))).flatten :=
      List.mem_flatten_of_mem hb hr
    rw [batches_flatten batch_size (by decide)] at hrmem
    obtain ⟨row, _, rfl⟩ := List.mem_map.mp hrmem
    simp [cleanRow, db_columns]
  · intro hs rows h hh
    have hcols : db_columns (hs ++ [h]) = db_columns hs := by
      unfold db_columns excel_to_db_columns
      rw [mappedColumnsFrom_append_unmapped _ _ hh]
    have hfun : (fun row => cleanRow (hs ++ [h]) row) = (fun row => cleanRow hs row) :=
      funext (cleanRow_append_unmapped hs h hh)
    show (batches batch_size (rows.map (fun row => cleanRow (hs ++ [h]) row))).map
        (fun b => (db_columns (hs ++ [h]), b))
      = (batches batch_size (rows.map (fun row => cleanRow hs row))).map
        (fun b => (db_columns hs, b))
    rw [hcols, hfun]

/-- C6 witness: on a concrete worksheet with one mapped and one unmapped
header, the single yielded batch carries the column list computed from the
header row, the output row has one cell per destination column, and
appending the unmapped header changes nothing. -/
theorem process_excel_data_columns_witness :
    (["year"], [[CellValue.int 2020]])
        ∈ process_excel_data ⟨[CellValue.str "Year", CellValue.str "Bogus"],
            [[CellValue.int 2020, CellValue.str "x"]]⟩ ∧
    (["year"], ([[CellValue.int 2020]] : List (List CellValue))).1
        = db_columns [CellValue.str "Year", CellValue.str "Bogus"] ∧
    process_excel_data ⟨[CellValue.str "Year"] ++ [CellValue.str "Bogus"],
        [[CellValue.int 2020, CellValue.str "x"]]⟩
      = process_excel_data ⟨[CellValue.str "Year"],
          [[CellValue.int 2020, CellValue.str "x"]]⟩ :=
  ⟨by decide,
   (process_excel_data_columns.2.1
      ⟨[CellValue.str "Year", CellValue.str "Bogus"],
        [[CellValue.int 2020, CellValue.str "x"]]⟩
      (["year"], [[CellValue.int 2020]]) (by decide)).1,
   process_excel_data_columns.2.2 [CellValue.str "Year"]
      [[CellValue.int 2020, CellValue.str "x"]] (CellValue.str "Bogus") (by decide)⟩

/-- The result of `requests.get` for a year: an HTTP response carrying a
status code and (once saved and parsed) the spreadsheet content, or a
network-level exception. -/
inductive HttpResult where
  | response (status : Nat) (content : Worksheet)
  | netError (msg : String)

/-- What the inner per-year try block of `main()` can end in. -/
inductive YearOutcome where
  | processed
  | skippedStatus (code : Nat)
  | failed (msg : String)
deriving DecidableEq, Repr

/-- The guarded work of one year inside the inner try of `main()`: fetch the URL
(a network fault is an exception), on status 200 run the
normalizer-and-loader over the downloaded content (which may itself raise),
on any other status only log the failed download.  The loader state δ
abstracts the database contents. -/
def runYear {δ : Type u} (fetch : Nat → HttpResult)
    (load : Nat → Worksheet → δ → Except String δ) (year : Nat) (db : δ) :
    Except String (YearOutcome × δ) :=
  match fetch year with
  | HttpResult.netError e => Except.error e
  | HttpResult.response st content =>
    if st = 200 then
      match load year content db with
      | Except.error e => Except.error e
      | Except.ok db2 => Except.ok (YearOutcome.processed, db2)
    else Except.ok (YearOutcome.skippedStatus st, db)

/-- The except clause at the year boundary: an exception becomes a logged
failure outcome, keeping the state the year started with. -/
def catchYear {δ : Type u} (db : δ) : Except String (YearOutcome × δ) → YearOutcome × δ
  | Except.ok r => r
  | Except.error e => (YearOutcome.failed e, db)

/-- One iteration of the year loop: run the year inside its try/except and
record (year, outcome). -/
def loopStep {δ : Type u} (fetch : Nat → HttpResult)
    (load : Nat → Worksheet → δ → Except String δ)
    (acc : List (Nat × YearOutcome) × δ) (year : Nat) : List (Nat × YearOutcome) × δ :=
  let r := catchYear acc.2 (runYear fetch load year acc.2)
  (acc.1 ++ [(year, r.1)], r.2)

/-- Embedding of `range(2007, current_year + 1)`. -/
def yearRange (currentYear : Nat) : List Nat :=
  List.range' 2007 (currentYear + 1 - 2007)

/-- Embedding of the year loop of the orchestrator: each year of the range in
order, outcome recorded, loader state threaded through. -/
def main_loop {δ : Type u} (fetch : Nat → HttpResult)
    (load : Nat → Worksheet → δ → Except String δ) (currentYear : Nat) (db : δ) :
    List (Nat × YearOutcome) × δ :=
  (yearRange currentYear).foldl (loopStep fetch load) ([], db)

/-- The years recorded by the loop are the accumulator years followed by the
whole list folded over, whatever the outcomes are. -/
theorem loopStep_foldl_fst {δ : Type u} (fetch : Nat → HttpResult)
    (load : Nat → Worksheet → δ → Except String δ) :
    ∀ (ys : List Nat) (acc : List (Nat × YearOutcome) × δ),
      ((ys.foldl (loopStep fetch load) acc).1).map Prod.fst = acc.1.map Prod.fst ++ ys := by
  intro ys
  induction ys with
  | nil => intro acc; simp
  | cons y t ih =>
    intro acc
    rw [List.foldl_cons, ih]
    simp [loopStep]

/-- Every year of the range appears in the outcome list, in range order. -/
theorem main_loop_years {δ : Type u} (fetch : Nat → HttpResult)
    (load : Nat → Worksheet → δ → Except String δ) (cy : Nat) (db : δ) :
    (main_loop fetch load cy db).1.map Prod.fst = yearRange cy := by
  unfold main_loop
  rw [loopStep_foldl_fst]
  simp

/-- C7: the orchestrator iterates over the fixed ascending year range 2007
through the current year inclusive; a year is in the range exactly when it
lies between those bounds; each iteration records an outcome for its year no
matter what the fetch and loader do, and an exception inside a year is
turned into a failure outcome at the year boundary instead of propagating. -/
theorem orchestrator_contract :
    (∀ (δ : Type) (fetch : Nat → HttpResult) (load : Nat → Worksheet → δ → Except String δ)
        (cy : Nat) (db : δ),
        (main_loop fetch load cy db).1.map Prod.fst = yearRange cy) ∧
    (∀ cy : Nat, List.Sorted (· < ·) (yearRange cy)) ∧
    (∀ cy y : Nat, y ∈ yearRange cy ↔ 2007 ≤ y ∧ y ≤ cy) ∧
    (∀ (δ : Type) (db : δ) (e : String),
        catchYear db (Except.error e) = (YearOutcome.failed e, db)) := by
  refine ⟨fun δ fetch load cy db => main_loop_years fetch load cy db, fun cy => ?_,
    fun cy y => ?_, fun δ db e => rfl⟩
  · exact List.pairwise_lt_range' 2007 _
  · rw [yearRange, List.mem_range'_1]
    omega

/-- C8: a non-200 response for a year raises no exception and never consults
the loader: the year ends as skipped with the loader state unchanged,
identically for every loader, and the year loop still records every year of
the range. -/
theorem fetch_non_200_skips :
    ∀ (δ : Type) (fetch : Nat → HttpResult)
      (load load' : Nat → Worksheet → δ → Except String δ)
      (y : Nat) (db : δ) (st : Nat) (ws : Worksheet),
      fetch y = HttpResult.response st ws → st ≠ 200 →
      runYear fetch load y db = Except.ok (YearOutcome.skippedStatus st, db) ∧
      runYear fetch load y db = runYear fetch load' y db ∧
      catchYear db (runYear fetch load y db) = (YearOutcome.skippedStatus st, db) ∧
      (∀ (cy : Nat) (db0 : δ),
          (main_loop fetch load cy db0).1.map Prod.fst = yearRange cy) := by
  intro δ fetch load load' y db st ws hf hst
  have h1 : runYear fetch load y db = Except.ok (YearOutcome.skippedStatus st, db) := by
    unfold runYear
    rw [hf]
    simp [hst]
  have h2 : runYear fetch load' y db = Except.ok (YearOutcome.skippedStatus st, db) := by
    unfold runYear
    rw [hf]
    simp [hst]
  exact ⟨h1, h1.trans h2.symm, by rw [h1]; rfl,
    fun cy db0 => main_loop_years fetch load cy db0⟩

/-- C8 witness: a fetch oracle that answers 404 for every year makes 2010
end as skipped with an unchanged state. -/
theorem fetch_non_200_skips_witness :
    runYear (fun _ => HttpResult.response 404 ⟨[], []⟩)
        (fun (_ : Nat) (_ : Worksheet) (db : Nat) => Except.ok db) 2010 0
      = Except.ok (YearOutcome.skippedStatus 404, 0) :=
  (fetch_non_200_skips Nat (fun _ => HttpResult.response 404 ⟨[], []⟩)
    (fun _ _ db => Except.ok db) (fun _ _ db => Except.ok db) 2010 0 404 ⟨[], []⟩
    rfl (by decide)).1

/-- The connection settings assembled by `connect_to_database`. -/
structure DBConfig where
  host : String
  port : String
  name : String
  user : String
  password : String
deriving DecidableEq, Repr

/-- Python truthiness of an `os.getenv` result: absent (None) or the empty
string is falsy, so `not all([...])` fires on either. -/
def truthyEnv : Option String → Bool
  | Option.none => false
  | some s => s ≠ ""

/-- Embedding of `connect_to_database()`: resolve the settings from the
environment (host and port fall back to defaults), raise ValueError when a
required credential is missing or empty, before any connection attempt;
otherwise attempt the connection through the psycopg2 oracle `tryConnect`. -/
def connect_to_database {γ : Type u} (env : String → Option String)
    (tryConnect : DBConfig → Except String γ) : Except String γ :=
  if truthyEnv (env "DB_NAME") && truthyEnv (env "DB_USER")
      && truthyEnv (env "DB_PASSWORD") then
    tryConnect
      ⟨(env "DB_HOST").getD "localhost", (env "DB_PORT").getD "5432",
        (env "DB_NAME").getD "", (env "DB_USER").getD "", (env "DB_PASSWORD").getD ""⟩
  else Except.error "Database credentials missing from .env file"

/-- The observable result of one run of `main()`. -/
structure RunResult (δ : Type u) where
  dbError : Option String
  tableCreated : Bool
  yearOutcomes : List (Nat × YearOutcome)
  finalState : Option δ
  connClosed : Bool

/-- Embedding of `main()` (named run_main, since `main` is reserved): connect (a failure is caught by the outer try, so
no table is created and no year runs, and the finally block finds no
connection to close), then create the table, run the year loop and close the
connection. -/
def run_main {γ δ : Type u} (env : String → Option String)
    (tryConnect : DBConfig → Except String γ) (fetch : Nat → HttpResult)
    (load : Nat → Worksheet → δ → Except String δ) (currentYear : Nat) (db0 : δ) :
    RunResult δ :=
  match connect_to_database env tryConnect with
  | Except.error e => ⟨some e, false, [], Option.none, false⟩
  | Except.ok _ =>
    let r := main_loop fetch load currentYear db0
    ⟨Option.none, true, r.1, some r.2, true⟩

/-- C9: a missing required credential (name, user or password) makes
connect_to_database fail with the ValueError message before any connection
attempt (the result does not depend on the connection oracle), so main
reports the error with no table created and no year processed; absence of
host and port is no error: the defaults localhost and 5432 are used. -/
theorem connect_to_database_credentials :
    ∀ (γ δ : Type) (env : String → Option String) (tryConnect : DBConfig → Except String γ)
      (fetch : Nat → HttpResult) (load : Nat → Worksheet → δ → Except String δ)
      (cy : Nat) (db0 : δ),
      ((env "DB_NAME" = Option.none ∨ env "DB_USER" = Option.none ∨
          env "DB_PASSWORD" = Option.none) →
        connect_to_database env tryConnect
          = Except.error "Database credentials missing from .env file" ∧
        (run_main env tryConnect fetch load cy db0).tableCreated = false ∧
        (run_main env tryConnect fetch load cy db0).yearOutcomes = []) ∧
      (∀ n u p : String,
        env "DB_HOST" = Option.none → env "DB_PORT" = Option.none →
        env "DB_NAME" = some n → n ≠ "" →
        env "DB_USER" = some u → u ≠ "" →
        env "DB_PASSWORD" = some p → p ≠ "" →
        connect_to_database env tryConnect = tryConnect ⟨"localhost", "5432", n, u, p⟩) := by
  intro γ δ env tryConnect fetch load cy db0
  constructor
  · intro hmiss
    have hconn : connect_to_database env tryConnect
        = Except.error "Database credentials missing from .env file" := by
      unfold connect_to_database
      rcases hmiss with h | h | h <;> rw [h] <;> simp [truthyEnv]
    refine ⟨hconn, ?_, ?_⟩ <;> unfold run_main <;> rw [hconn]
  · intro n u p hhost hport hname hn huser hu hpass hp
    unfold connect_to_database
    rw [hname, huser, hpass, hhost, hport]
    simp [truthyEnv, hn, hu, hp]

/-- C9 witness: with only DB_HOST set the run aborts on the ValueError with
no table created; with exactly the three credentials set the connection is
attempted with default host and port. -/
theorem connect_to_database_credentials_witness :
    connect_to_database (fun k => if k = "DB_HOST" then some "h" else Option.none)
        (fun c => Except.ok c)
      = Except.error "Database credentials missing from .env file" ∧
    (run_main (fun k => if k = "DB_HOST" then some "h" else Option.none)
        (fun c => Except.ok c) (fun _ => HttpResult.response 404 ⟨[], []⟩)
        (fun (_ : Nat) (_ : Worksheet) (db : Nat) => Except.ok db) 2008 0).tableCreated
      = false ∧
    connect_to_database
        (fun k => if k = "DB_NAME" then some "db" else if k = "DB_USER" then some "u"
          else if k = "DB_PASSWORD" then some "p" else Option.none)
        (fun c => Except.ok c)
      = Except.ok ⟨"localhost", "5432", "db", "u", "p"⟩ :=
  ⟨((connect_to_database_credentials DBConfig Nat
      (fun k => if k = "DB_HOST" then some "h" else Option.none) (fun c => Except.ok c)
      (fun _ => HttpResult.response 404 ⟨[], []⟩)
      (fun _ _ db => Except.ok db) 2008 0).1 (Or.inl (by decide))).1,
   ((connect_to_database_credentials DBConfig Nat
      (fun k => if k = "DB_HOST" then some "h" else Option.none) (fun c => Except.ok c)
      (fun _ => HttpResult.response 404 ⟨[], []⟩)
      (fun _ _ db => Except.ok db) 2008 0).1 (Or.inl (by decide))).2.1,
   (connect_to_database_credentials DBConfig Nat
      (fun k => if k = "DB_NAME" then some "db" else if k = "DB_USER" then some "u"
        else if k = "DB_PASSWORD" then some "p" else Option.none) (fun c => Except.ok c)
      (fun _ => HttpResult.response 404 ⟨[], []⟩)
      (fun _ _ db => Except.ok db) 2008 0).2 "db" "u" "p"
      (by decide) (by decide) (by decide) (by decide) (by decide) (by decide)
      (by decide) (by decide)⟩

/-- C4 witness: on a one-row worksheet the single yielded batch is nonempty
and within the batch size. -/
theorem process_excel_data_batching_witness :
    0 < ([[CellValue.int 2020]] : List (List CellValue)).length ∧
    ([[CellValue.int 2020]] : List (List CellValue)).length ≤ batch_size :=
  (process_excel_data_batching ⟨[CellValue.str "Year"], [[CellValue.int 2020]]⟩).2.2
    [[CellValue.int 2020]] (by decide)
